import Mathlib

/-!
Shallow embedding of the browser-extension data-synchronization and local-cache
layer (the store/api module of the Flowe repository): JS plain objects used as
id-keyed mappings, the read-through collection fetcher with request coalescing,
the sync controller (refetchCollections / autosync), the identity resolver
(getSignedInUser / logout), the template projection (getTemplates), the search
entry point (searchTemplates) and the usage-stats updater (updateTemplateStats).

Modelling conventions:
- JS objects used as mappings are association lists with unique keys kept in
  insertion order (`JsObj`); property writes follow JS semantics (an existing
  key keeps its position and gets the new value, a new key is appended).
- Dates are epoch-millisecond integers; an absent value is `none`. JS NaN
  arithmetic on Invalid Dates is modelled by `JsNum`.
- Strings split by JS `split(' ')` are handled on their character lists.
- Asynchronous code is modelled by explicit state passing; the interleaving of
  concurrent `getCollection` calls is modelled by an explicit event-step system.
- Fallible code returns `Except JsError`; the `LOGGED_OUT_ERR` sentinel string
  is the `JsError.loggedOut` constructor.
- External collaborators (the fuzzy search ranker, html-to-text conversion, the
  remote query responses) are parameters.
-/

namespace Flowe

/-- A JS plain object used as an id-keyed mapping: an association list whose
keys are unique and kept in insertion order. Template/tag ids are non-numeric
strings, so JS object key order is insertion order. -/
abbrev JsObj (V : Type) : Type := List (String × V)

/-- A single JS property write `m[k] = v`: if the key exists its value is
replaced in place (key order preserved), otherwise the pair is appended. -/
def objSet {V : Type} (m : JsObj V) (k : String) (v : V) : JsObj V :=
  if m.any (fun p => p.1 = k) then
    m.map (fun p => if p.1 = k then (k, v) else p)
  else
    m ++ [(k, v)]

/-- `Object.assign(target, source)`: copies every own key of `source` into
`target` in source order (later keys of the source overwrite earlier writes). -/
def objAssign {V : Type} (m : JsObj V) (src : JsObj V) : JsObj V :=
  src.foldl (fun acc p => objSet acc p.1 p.2) m

/-- `Object.assign({}, ...sources)` (store/api line 366): fold the sources into
a fresh empty object, left to right. -/
def objAssignAll {V : Type} (sources : List (JsObj V)) : JsObj V :=
  sources.foldl objAssign []

/-- `refreshLocalData` (store/api lines 158-168): normalizes snapshot rows into
an id-keyed object via `data[doc.id] = doc.data()`. -/
def rowsToObj {V : Type} (rows : List (String × V)) : JsObj V :=
  rows.foldl (fun acc p => objSet acc p.1 p.2) []

/-- A remote template row / cached template record. Only the fields the claims
touch are carried; dates are epoch milliseconds (`none` = absent field). -/
structure Template where
  body : String
  created_datetime : Option Int
  tags : List String
  deriving DecidableEq, Repr

/-- A tag record from the `tags` collection. -/
structure Tag where
  id : String
  title : String
  deriving DecidableEq, Repr

/-- The projected template returned by `getTemplates` (store/api lines 368-376):
the record augmented with its id and the derived plaintext body. -/
structure TemplateDisplay where
  id : String
  body : String
  created_datetime : Option Int
  tags : List String
  body_plaintext : String
  deriving DecidableEq, Repr

/-- `convertToNativeDates` (store/api lines 55-64) coerces string dates to Date
objects; on the epoch-millisecond representation this coercion is the
identity. -/
def convertToNativeDates (t : Template) : Template := t

/-- The projection step of `getTemplates` (store/api lines 368-376): augment the
record with its id and the html-to-text plaintext of its body. `htmlToText` is
an external collaborator passed as a parameter. -/
def projectTemplate (htmlToText : String → String) (id : String) (t : Template) :
    TemplateDisplay :=
  let parsed := convertToNativeDates t
  { id := id
    body := parsed.body
    created_datetime := parsed.created_datetime
    tags := parsed.tags
    body_plaintext := htmlToText t.body }

/-- The sort key of the free-plan comparator (store/api line 381):
`new Date(a.created_datetime || 0)`, an absent date falling back to epoch 0. -/
def createdKey (t : TemplateDisplay) : Int :=
  t.created_datetime.getD 0

/-- The free-plan sort (store/api lines 380-382): ascending by creation date;
JS Array.prototype.sort is stable, modelled by a stable merge sort. -/
def sortByCreated (l : List TemplateDisplay) : List TemplateDisplay :=
  l.mergeSort (fun a b => decide (createdKey a ≤ createdKey b))

/-- `templatesFreeLimit` (store/api line 331). -/
def templatesFreeLimit : Nat := 30

/-- The body of `getTemplates` after user and plan resolution (store/api lines
341-386): `freeCustomer` is the resolved free-plan status and `owned`,
`shared`, `everyone` are the fetched collection mappings. Free plans fetch only
`templatesOwned`; the fetched collections are merged with
`Object.assign({}, ...res)`, each record is projected, and for free plans the
list is sorted ascending by creation date and truncated to the first 30. -/
def getTemplatesResult (htmlToText : String → String) (freeCustomer : Bool)
    (owned shared everyone : JsObj Template) : List TemplateDisplay :=
  let res := if freeCustomer then [owned] else [owned, shared, everyone]
  let templates := objAssignAll res
  let projected := templates.map (fun p => projectTemplate htmlToText p.1 p.2)
  if freeCustomer then
    (sortByCreated projected).take templatesFreeLimit
  else
    projected

/-- A JS number that may be NaN (the value of an Invalid Date). -/
inductive JsNum where
  | num (n : Int)
  | nan
  deriving DecidableEq, Repr

/-- `new Date(v).valueOf()` for the stored `lastSync` value: `new
Date(undefined)` is an Invalid Date whose numeric value is NaN. -/
def jsDateValue : Option Int → JsNum
  | some t => .num t
  | none => .nan

/-- JS subtraction `now - d` where `d` may be NaN. -/
def jsSub (a : Int) : JsNum → JsNum
  | .num b => .num (a - b)
  | .nan => .nan

/-- JS comparison `x > y` where `x` may be NaN: any comparison with NaN is
false. -/
def jsGtInt : JsNum → Int → Bool
  | .num a, b => decide (a > b)
  | .nan, _ => false

/-- `defaultSyncTimeout` (store/api line 219): three hours in milliseconds. -/
def defaultSyncTimeout : Int := 3 * 60 * 60 * 1000

/-- The refetch decision of `autosync` (store/api lines 220-229): computes
`new Date() - new Date(data.lastSync)` and refetches exactly when that exceeds
the timeout. Returns true iff `refetchCollections()` is invoked. -/
def autosyncRefetches (now : Int) (lastSync : Option Int) (timeout : Int) : Bool :=
  jsGtInt (jsSub now (jsDateValue lastSync)) timeout

/-- The space character, written via its code point. -/
def spaceChar : Char := Char.ofNat 32

/-- JS `String.prototype.split(' ')` on the character list of the string:
splits at every single space character keeping empty segments; the empty string
yields one empty segment. -/
def jsSplitSpace : List Char → List (List Char)
  | [] => [[]]
  | c :: rest =>
    let r := jsSplitSpace rest
    if c = spaceChar then
      [] :: r
    else
      match r with
      | t :: ts => (c :: t) :: ts
      | [] => [[c]]

/-- Modelled from the spec: the persisted ExtensionData bundle lives in
store/extension-data.js, which is not among the sources. Spec section 3: it
holds cumulative usage stats (`words`), the last-sync timestamp and
per-template last-used timestamps. -/
structure ExtensionData where
  words : Nat
  lastSync : Option Int
  templatesLastUsed : JsObj String
  deriving DecidableEq, Repr

/-- Modelled from the spec: the default ExtensionData before anything was
persisted (zero usage stats, never synced, no last-used entries). -/
def defaultExtensionData : ExtensionData :=
  { words := 0, lastSync := none, templatesLastUsed := [] }

/-- `updateTemplateStats` (store/api lines 510-525): records the current
timestamp (`now`, the ISO string of the current date) as the last-used time of
the template id and adds `(_body_plaintext || '').split(' ').length` to the
persisted cumulative `words` count. `setExtensionData` merges the given fields
into the stored bundle (modelled from the spec), so `lastSync` is preserved. -/
def updateTemplateStats (now : String) (id : String) (plaintext : String)
    (data : ExtensionData) : ExtensionData :=
  let lastuseCache := objSet data.templatesLastUsed id now
  let wordCount := (jsSplitSpace plaintext.data).length
  { data with templatesLastUsed := lastuseCache, words := data.words + wordCount }

/-- The result shape of `searchTemplates`: `{query, results}`. -/
structure SearchResult (R : Type) where
  query : String
  results : List R
  deriving DecidableEq, Repr

/-- The canceled marker `{query: '_SEARCH_CANCELED', results: []}` (store/api
lines 603-606). -/
def searchCanceled (R : Type) : SearchResult R :=
  { query := "_SEARCH_CANCELED", results := [] }

/-- `parseTags` (store/api lines 574-580): resolve tag ids against the tag
list, dropping unresolved ids. -/
def parseTags (tagIds : List String) (allTags : List Tag) : List Tag :=
  (tagIds.map (fun tagId => allTags.find? (fun t => t.id = tagId))).reduceOption

/-- A search-ready template projection (store/api lines 582-589): body replaced
by the plaintext, tags replaced by resolved tag titles. -/
structure SearchItem where
  id : String
  body : String
  tags : List String
  deriving DecidableEq, Repr

/-- `getSearchList` (store/api lines 582-589). -/
def getSearchList (templates : List TemplateDisplay) (allTags : List Tag) :
    List SearchItem :=
  templates.map (fun t =>
    { id := t.id
      body := t.body_plaintext
      tags := (parseTags t.tags allTags).map Tag.title })

/-- The module-level `lastSearchQuery` after a sequence of `searchTemplates`
calls: each call synchronously overwrites it with its query (store/api lines
591-593). -/
def lastQueryAfter (init : String) (issued : List String) : String :=
  issued.foldl (fun _ q => q) init

/-- The resolution step of `searchTemplates(query)` (store/api lines 599-614),
taken when its getTemplates/getTags fetches settle: the query is compared
against the current `lastSearchQuery`; on a mismatch the canceled marker is
returned without invoking the external `fuzzySearch` ranker (passed as the
parameter `fuzzy`); on a match the ranking is applied and `{query, results}`
returned. -/
def searchResolve (R : Type)
    (fuzzy : List TemplateDisplay → List SearchItem → String → List R)
    (lastSearchQuery query : String)
    (templates : List TemplateDisplay) (tags : List Tag) : SearchResult R :=
  if query ≠ lastSearchQuery then
    searchCanceled R
  else
    { query := query, results := fuzzy templates (getSearchList templates tags) query }

/-!
The concurrent collection fetcher (store/api lines 129-183): `getCollection`
checks the module-level `collectionRequestQueue` synchronously, then reads the
persistent cache asynchronously, and on a miss issues the remote query, parking
the pending promise in the queue. The interleaving of concurrent calls for ONE
collection name is modelled as an event-step system: a `call` event is the
synchronous part of an invocation, a `resume` event is its storage-read
callback, and a `settle` event is the settlement of an issued remote fetch
(whose handler clears the queue entry, rethrows a remote error or writes the
normalized mapping back to the cache).
-/

instance {α β : Type} [DecidableEq α] [DecidableEq β] : DecidableEq (Except α β) :=
  fun x y =>
    match x, y with
    | .ok a, .ok b =>
      if h : a = b then isTrue (congrArg Except.ok h)
      else isFalse (fun hh => h (Except.ok.inj hh))
    | .error a, .error b =>
      if h : a = b then isTrue (congrArg Except.error h)
      else isFalse (fun hh => h (Except.error.inj hh))
    | .ok _, .error _ => isFalse (fun hh => Except.noConfusion hh)
    | .error _, .ok _ => isFalse (fun hh => Except.noConfusion hh)

/-- The state of one `getCollection` invocation. -/
inductive CallState (δ ε : Type) where
  | start
  | awaitStorage
  | awaitFetch (fid : Nat)
  | done (result : Except ε (JsObj δ))
  deriving DecidableEq, Repr

/-- The process-wide state relevant to one collection name: the
`collectionRequestQueue` entry, the persistent cache value, the states of the
invocations, the issued-but-unsettled remote fetches, a fresh fetch-id supply
and the total number of remote fetches issued. -/
structure FetcherState (δ ε : Type) where
  queue : Option Nat
  storage : Option (JsObj δ)
  calls : List (CallState δ ε)
  pending : List Nat
  nextFetch : Nat
  fetchCount : Nat
  deriving DecidableEq, Repr

/-- Replace the state of invocation `i`. -/
def setCall {δ ε : Type} (s : FetcherState δ ε) (i : Nat) (c : CallState δ ε) :
    FetcherState δ ε :=
  { s with calls := s.calls.set i c }

/-- The synchronous part of a `getCollection` call (store/api lines 131-138):
if the request queue holds a pending fetch the caller is attached to that same
promise; otherwise the caller starts an asynchronous storage read. -/
def stepCall {δ ε : Type} (s : FetcherState δ ε) (i : Nat) : FetcherState δ ε :=
  match s.calls[i]? with
  | some .start =>
    match s.queue with
    | some f => setCall s i (.awaitFetch f)
    | none => setCall s i .awaitStorage
  | _ => s

/-- The storage-read callback (store/api lines 139-153): on a cache hit the
caller resolves directly with the cached mapping; on a miss it issues the
remote query, stores the pending promise in the request queue — overwriting any
entry, the callback performs no second queue check — and attaches to it. -/
def stepResume {δ ε : Type} (s : FetcherState δ ε) (i : Nat) : FetcherState δ ε :=
  match s.calls[i]? with
  | some .awaitStorage =>
    match s.storage with
    | some d => setCall s i (.done (.ok d))
    | none =>
      let f := s.nextFetch
      { setCall s i (.awaitFetch f) with
        queue := some f
        pending := f :: s.pending
        nextFetch := f + 1
        fetchCount := s.fetchCount + 1 }
  | _ => s

/-- Settlement of remote fetch `f` with outcome `out` (store/api lines
145-151): the handler first sets the request-queue entry to null
unconditionally, then rethrows a remote error (cache untouched) or normalizes
the rows into an id-keyed mapping and writes it back
(`refreshLocalData`/`updateCache`); every caller attached to `f` observes the
same settled result. -/
def stepSettle {δ ε : Type} (s : FetcherState δ ε) (f : Nat)
    (out : Except ε (List (String × δ))) : FetcherState δ ε :=
  if f ∈ s.pending then
    let result : Except ε (JsObj δ) := out.map rowsToObj
    { s with
      queue := none
      pending := s.pending.erase f
      storage := match result with | .ok d => some d | .error _ => s.storage
      calls := s.calls.map (fun c =>
        match c with
        | .awaitFetch g => if g = f then .done result else c
        | c => c) }
  else s

/-- One interleaving event for the fetcher of a single collection name. -/
inductive FetchEvent (δ ε : Type) where
  | call (i : Nat)
  | resume (i : Nat)
  | settle (f : Nat) (out : Except ε (List (String × δ)))

/-- Apply one event. -/
def stepEvent {δ ε : Type} (s : FetcherState δ ε) : FetchEvent δ ε → FetcherState δ ε
  | .call i => stepCall s i
  | .resume i => stepResume s i
  | .settle f out => stepSettle s f out

/-- Run a sequence of events. -/
def execEvents {δ ε : Type} (s : FetcherState δ ε) (es : List (FetchEvent δ ε)) :
    FetcherState δ ε :=
  es.foldl stepEvent s

/-- The initial fetcher state: `n` invocations about to run, the module-level
request queue empty, the cache holding `cached`, no fetch issued yet. -/
def initFetcher (δ ε : Type) (n : Nat) (cached : Option (JsObj δ)) :
    FetcherState δ ε :=
  { queue := none
    storage := cached
    calls := List.replicate n .start
    pending := []
    nextFetch := 0
    fetchCount := 0 }

/-!
Sequential model of the identity resolver and sync controller (store/api lines
185-229, 265-329, 448-508): stateful async code at rest (no interleaved
`getCollection` calls, so the request queue is empty at entry and at exit of
every operation) is modelled by explicit state passing over a `World` record
holding the persistent storage keys, the remote-auth client state and the
badge. Remote query responses are supplied by a `RemoteEnv` parameter.
-/

/-- The errors the embedded code can raise: the `LOGGED_OUT_ERR` sentinel
string (store/api line 265), a TypeError from a property access on undefined,
and remote query errors (identified by a code). -/
inductive JsError where
  | loggedOut
  | typeError
  | remote (code : Nat)
  deriving DecidableEq, Repr

/-- `isLoggedOut` (store/api lines 266-268): strict equality with the
sentinel. -/
def isLoggedOut (e : JsError) : Bool :=
  e = JsError.loggedOut

/-- A row of the `users` collection; only the fields the embedded operations
read are carried. -/
structure UserRecord where
  customers : List String
  deriving DecidableEq, Repr

/-- The subscription of a customer record. -/
structure Subscription where
  plan : String
  deriving DecidableEq, Repr

/-- A row of the `customers` collection; `subscription` may be absent. -/
structure Customer where
  subscription : Option Subscription
  deriving DecidableEq, Repr

/-- The locally cached signed-in user `{id, customer}`; `customer` is null
until active-customer resolution completes. -/
structure SignedInUser where
  id : String
  customer : Option String
  deriving DecidableEq, Repr

/-- The value stored under the `firebaseUser` storage key: absent, the empty
object `{}` written by `setSignedInUser({})`, or a populated user. -/
inductive StoredUser where
  | absent
  | empty
  | signed (u : SignedInUser)
  deriving DecidableEq, Repr

/-- The six collection cache entries of local storage (`none` = absent or set
to null, forcing the next `getCollection` to refetch). -/
structure Collections where
  users : Option (JsObj UserRecord)
  customers : Option (JsObj Customer)
  tags : Option (JsObj Tag)
  templatesOwned : Option (JsObj Template)
  templatesShared : Option (JsObj Template)
  templatesEveryone : Option (JsObj Template)
  deriving DecidableEq, Repr

/-- All collection caches absent. -/
def emptyCollections : Collections :=
  { users := none, customers := none, tags := none
    templatesOwned := none, templatesShared := none, templatesEveryone := none }

/-- The collection names (`allCollections`, store/api lines 104-111). -/
inductive CollectionName where
  | users
  | customers
  | tags
  | templatesOwned
  | templatesShared
  | templatesEveryone
  deriving DecidableEq, Repr

/-- `allCollections` (store/api lines 104-111). -/
def allCollections : List CollectionName :=
  [.users, .customers, .tags, .templatesOwned, .templatesShared, .templatesEveryone]

/-- The rows the remote store returns for each per-collection query of this
user (section 6 of the spec); a query may instead fail with an error. The
filters themselves run remotely, so the response is a parameter. -/
structure RemoteEnv where
  users : Except JsError (List (String × UserRecord))
  customers : Except JsError (List (String × Customer))
  tags : Except JsError (List (String × Tag))
  templatesOwned : Except JsError (List (String × Template))
  templatesShared : Except JsError (List (String × Template))
  templatesEveryone : Except JsError (List (String × Template))
  deriving DecidableEq, Repr

/-- The process-and-storage state the sequential operations act on. -/
structure World where
  authUser : Option String
  storedUser : StoredUser
  collections : Collections
  extensionData : Option ExtensionData
  sessionKey : Option (Option String)
  badge : Bool
  pendingSetActiveCustomer : Option (Option String)
  deriving DecidableEq, Repr

/-- Modelled from the spec: `getExtensionData` (store/extension-data.js, not
among the sources) reads the persisted bundle, with zeroed defaults before
anything was persisted. -/
def getExtensionData (w : World) : ExtensionData :=
  w.extensionData.getD defaultExtensionData

/-- `updateCache` stamping `lastSync = Date.now()` via `setExtensionData`
(store/api lines 178-180); `setExtensionData` merges into the stored bundle
(modelled from the spec). -/
def touchLastSync (now : Int) (w : World) : World :=
  { w with extensionData := some { getExtensionData w with lastSync := some now } }

/-- Presence of a collection cache entry. -/
def collectionPresent (w : World) : CollectionName → Bool
  | .users => w.collections.users.isSome
  | .customers => w.collections.customers.isSome
  | .tags => w.collections.tags.isSome
  | .templatesOwned => w.collections.templatesOwned.isSome
  | .templatesShared => w.collections.templatesShared.isSome
  | .templatesEveryone => w.collections.templatesEveryone.isSome

/-- Setting one collection cache key to null (the invalidation step of
`refetchCollections`, store/api lines 187-192). -/
def clearCollectionW (w : World) : CollectionName → World
  | .users => { w with collections := { w.collections with users := none } }
  | .customers => { w with collections := { w.collections with customers := none } }
  | .tags => { w with collections := { w.collections with tags := none } }
  | .templatesOwned =>
    { w with collections := { w.collections with templatesOwned := none } }
  | .templatesShared =>
    { w with collections := { w.collections with templatesShared := none } }
  | .templatesEveryone =>
    { w with collections := { w.collections with templatesEveryone := none } }

/-- The sequential projection of `getCollection` (store/api lines 131-155) for
each collection name: return the cached mapping if present, else run the remote
query, normalize the rows (`refreshLocalData`), persist the mapping and stamp
`lastSync` (`updateCache`), or propagate the remote error. The request queue is
empty at entry and cleared again before any result propagates, so it does not
appear in the sequential model. -/
def getCollectionW (now : Int) (env : RemoteEnv) (w : World) :
    CollectionName → Except JsError World
  | .users =>
    match w.collections.users with
    | some _ => .ok w
    | none =>
      match env.users with
      | .error e => .error e
      | .ok rows =>
        .ok (touchLastSync now
          { w with collections := { w.collections with users := some (rowsToObj rows) } })
  | .customers =>
    match w.collections.customers with
    | some _ => .ok w
    | none =>
      match env.customers with
      | .error e => .error e
      | .ok rows =>
        .ok (touchLastSync now
          { w with collections := { w.collections with customers := some (rowsToObj rows) } })
  | .tags =>
    match w.collections.tags with
    | some _ => .ok w
    | none =>
      match env.tags with
      | .error e => .error e
      | .ok rows =>
        .ok (touchLastSync now
          { w with collections := { w.collections with tags := some (rowsToObj rows) } })
  | .templatesOwned =>
    match w.collections.templatesOwned with
    | some _ => .ok w
    | none =>
      match env.templatesOwned with
      | .error e => .error e
      | .ok rows =>
        .ok (touchLastSync now
          { w with collections :=
            { w.collections with templatesOwned := some (rowsToObj rows) } })
  | .templatesShared =>
    match w.collections.templatesShared with
    | some _ => .ok w
    | none =>
      match env.templatesShared with
      | .error e => .error e
      | .ok rows =>
        .ok (touchLastSync now
          { w with collections :=
            { w.collections with templatesShared := some (rowsToObj rows) } })
  | .templatesEveryone =>
    match w.collections.templatesEveryone with
    | some _ => .ok w
    | none =>
      match env.templatesEveryone with
      | .error e => .error e
      | .ok rows =>
        .ok (touchLastSync now
          { w with collections :=
            { w.collections with templatesEveryone := some (rowsToObj rows) } })

/-- `clearDataCache` (store/api lines 66-78): read the `words` stat, clear all
of local storage, then rewrite ExtensionData with only the preserved `words`. -/
def clearDataCache (w : World) : World :=
  let words := (getExtensionData w).words
  { w with
    storedUser := .absent
    sessionKey := none
    collections := emptyCollections
    extensionData := some { defaultExtensionData with words := words } }

/-- `setSignedInUser` (store/api lines 313-321): write the given value under
the `firebaseUser` key. -/
def setStoredUser (w : World) (u : StoredUser) : World :=
  { w with storedUser := u }

/-- `getActiveCustomer` (store/api lines 474-491): fetch the `users`
collection, look up the user record (a property access on a missing record
throws a TypeError); keep the cached customer if still a membership, else
default to the first membership (undefined when there is none). -/
def getActiveCustomer (now : Int) (env : RemoteEnv) (w : World)
    (user : SignedInUser) : Except JsError (Option String) × World :=
  match getCollectionW now env w .users with
  | .error e => (.error e, w)
  | .ok w2 =>
    let users := w2.collections.users.getD []
    match users.lookup user.id with
    | none => (.error .typeError, w2)
    | some userData =>
      match user.customer with
      | some c =>
        if c ∈ userData.customers then (.ok (some c), w2)
        else (.ok userData.customers.head?, w2)
      | none => (.ok userData.customers.head?, w2)

/-- `getSignedInUser` (store/api lines 277-311): read the cached user and the
live auth user. If the live user matches the cached id, resolve the active
customer — firing a non-awaited `setActiveCustomer` (recorded, not executed)
when the cached customer is set and differs — and return `{id, customer}`. If
there is no live session but a non-empty user is cached, perform the
remote-logout cleanup (badge off, clearDataCache, store `{}`) before signaling
logged-out. All remaining paths signal logged-out. -/
def getSignedInUser (now : Int) (env : RemoteEnv) (w : World) :
    Except JsError SignedInUser × World :=
  match w.authUser with
  | some fid =>
    match w.storedUser with
    | .signed u =>
      if u.id = fid then
        match getActiveCustomer now env w u with
        | (.error e, w2) => (.error e, w2)
        | (.ok customer, w2) =>
          let w3 :=
            match u.customer with
            | some c =>
              if customer ≠ some c then
                { w2 with pendingSetActiveCustomer := some customer }
              else w2
            | none => w2
          (.ok { id := u.id, customer := customer }, w3)
      else (.error .loggedOut, w)
    | _ => (.error .loggedOut, w)
  | none =>
    match w.storedUser with
    | .signed _ =>
      let w2 := clearDataCache { w with badge := false }
      let w3 := setStoredUser w2 .empty
      (.error .loggedOut, w3)
    | _ => (.error .loggedOut, w)

/-- `isFree` (store/api lines 323-329): fetch the `customers` collection, index
it with the cached customer id (a subscription access on a missing record
throws a TypeError) and test `subscription?.plan === 'free'`. -/
def isFree (now : Int) (env : RemoteEnv) (w : World) (user : SignedInUser) :
    Except JsError Bool × World :=
  match getCollectionW now env w .customers with
  | .error e => (.error e, w)
  | .ok w2 =>
    let customers := w2.collections.customers.getD []
    match user.customer with
    | none => (.error .typeError, w2)
    | some cid =>
      match customers.lookup cid with
      | none => (.error .typeError, w2)
      | some customer =>
        (.ok (customer.subscription.map Subscription.plan = some "free"), w2)

/-- `logout` (store/api lines 448-457): sign out of the remote auth client (the
auth-state listener persists the null session), store the empty user, turn the
badge off, run `clearDataCache` (not awaited in the source; modelled as
completing here) and write null under the session key. -/
def logout (w : World) : World :=
  let w1 := { w with authUser := none, sessionKey := some none }
  let w2 := setStoredUser w1 .empty
  let w3 := { w2 with badge := false }
  let w4 := clearDataCache w3
  { w4 with sessionKey := some none }

/-- `refetchCollections` (store/api lines 185-216): set the requested
collection keys (default: all six) to null, then — inside the try — resolve
the user, determine free-plan status, drop the two shared-template collections
for free plans and refetch the rest (`Promise.all`, modelled as a sequential
fold that stops at the first error). A `LoggedOut` failure anywhere in the try
resolves successfully; any other failure propagates. -/
def refetchCollections (now : Int) (env : RemoteEnv)
    (collections : List CollectionName) (w : World) : Except JsError Unit × World :=
  let collectionsToClear := if collections.isEmpty then allCollections else collections
  let w1 := collectionsToClear.foldl clearCollectionW w
  match getSignedInUser now env w1 with
  | (.error e, w2) => if isLoggedOut e then (.ok (), w2) else (.error e, w2)
  | (.ok user, w2) =>
    match isFree now env w2 user with
    | (.error e, w3) => if isLoggedOut e then (.ok (), w3) else (.error e, w3)
    | (.ok free, w3) =>
      let collectionsToRefetch :=
        if free then
          collectionsToClear.filter (fun c =>
            !([CollectionName.templatesShared, CollectionName.templatesEveryone].contains c))
        else collectionsToClear
      let fetched := collectionsToRefetch.foldl
        (fun acc c =>
          match acc with
          | (wa, none) =>
            match getCollectionW now env wa c with
            | .ok wb => (wb, none)
            | .error e => (wa, some e)
          | (wa, some e) => (wa, some e))
        (w3, (none : Option JsError))
      match fetched with
      | (w4, some e) => if isLoggedOut e then (.ok (), w4) else (.error e, w4)
      | (w4, none) => (.ok (), w4)

/-- `autosync` (store/api lines 220-229): read ExtensionData and trigger a full
`refetchCollections()` exactly when `new Date() - new Date(data.lastSync)`
exceeds the timeout. -/
def autosync (now : Int) (timeout : Int) (env : RemoteEnv) (w : World) :
    Except JsError Unit × World :=
  if autosyncRefetches now (getExtensionData w).lastSync timeout then
    refetchCollections now env [] w
  else
    (.ok (), w)

/-!
Helper lemmas about the JS-object operations, the space split and the
collection-cache invalidation.
-/

theorem lookup_cons_if {V : Type} (a : String) (v : V) (l : JsObj V) (k : String) :
    List.lookup k ((a, v) :: l) = if k = a then some v else List.lookup k l := by
  rw [List.lookup_cons]
  by_cases h : k = a
  · simp [h]
  · rw [beq_eq_false_iff_ne.mpr h]
    simp [h]

theorem lookup_map_updateKey {V : Type} (k : String) (v : V) (k2 : String)
    (h : k2 ≠ k) (m : JsObj V) :
    (m.map (fun p => if p.1 = k then (k, v) else p)).lookup k2 = m.lookup k2 := by
  induction m with
  | nil => rfl
  | cons q rest ih =>
    obtain ⟨qa, qb⟩ := q
    by_cases hq : qa = k
    · have hhead : (if (qa, qb).1 = k then (k, v) else (qa, qb)) = ((k, v) : String × V) := by
        simp [hq]
      rw [List.map_cons, hhead, lookup_cons_if, if_neg h, lookup_cons_if, hq,
        if_neg h, ih]
    · have hhead : (if (qa, qb).1 = k then (k, v) else (qa, qb)) = ((qa, qb) : String × V) := by
        simp [hq]
      rw [List.map_cons, hhead, lookup_cons_if, lookup_cons_if, ih]

theorem lookup_map_updateKey_self {V : Type} (k : String) (v : V) (m : JsObj V)
    (h : m.any (fun p => p.1 = k) = true) :
    (m.map (fun p => if p.1 = k then (k, v) else p)).lookup k = some v := by
  induction m with
  | nil => simp at h
  | cons q rest ih =>
    obtain ⟨qa, qb⟩ := q
    by_cases hq : qa = k
    · have hhead : (if (qa, qb).1 = k then (k, v) else (qa, qb)) = ((k, v) : String × V) := by
        simp [hq]
      rw [List.map_cons, hhead, lookup_cons_if, if_pos rfl]
    · simp only [List.any_cons] at h
      have hrest : rest.any (fun p => p.1 = k) = true := by
        rcases Bool.or_eq_true_iff.mp h with h1 | h1
        · exact absurd (of_decide_eq_true h1) hq
        · exact h1
      have hhead : (if (qa, qb).1 = k then (k, v) else (qa, qb)) = ((qa, qb) : String × V) := by
        simp [hq]
      rw [List.map_cons, hhead, lookup_cons_if,
        if_neg (fun hk : k = qa => hq hk.symm)]
      exact ih hrest

theorem lookup_eq_none_of_not_mem_keys {V : Type} (m : JsObj V) (k : String)
    (h : k ∉ m.map Prod.fst) : m.lookup k = none := by
  induction m with
  | nil => rfl
  | cons q rest ih =>
    obtain ⟨qa, qb⟩ := q
    simp only [List.map_cons, List.mem_cons, not_or] at h
    rw [lookup_cons_if, if_neg h.1]
    exact ih h.2

theorem lookup_objSet {V : Type} (m : JsObj V) (k : String) (v : V) (k2 : String) :
    (objSet m k v).lookup k2 = if k2 = k then some v else m.lookup k2 := by
  unfold objSet
  by_cases ha : m.any (fun p => p.1 = k) = true
  · rw [if_pos ha]
    by_cases h2 : k2 = k
    · subst h2
      rw [if_pos rfl]
      exact lookup_map_updateKey_self k2 v m ha
    · rw [if_neg h2]
      exact lookup_map_updateKey k v k2 h2 m
  · rw [if_neg ha, List.lookup_append]
    by_cases h2 : k2 = k
    · subst h2
      have hmem : k2 ∉ m.map Prod.fst := by
        intro hmem
        apply ha
        rcases List.mem_map.mp hmem with ⟨p, hp, hpk⟩
        exact List.any_eq_true.mpr ⟨p, hp, decide_eq_true hpk⟩
      rw [lookup_eq_none_of_not_mem_keys m k2 hmem, if_pos rfl]
      rw [lookup_cons_if, if_pos rfl]
      rfl
    · rw [if_neg h2]
      have : List.lookup k2 [(k, v)] = none := by
        rw [lookup_cons_if, if_neg h2]
        rfl
      rw [this, Option.or_none]

theorem lookup_objAssign {V : Type} (src : JsObj V) (m : JsObj V) (k : String)
    (hnd : (src.map Prod.fst).Nodup) :
    (objAssign m src).lookup k = (src.lookup k).or (m.lookup k) := by
  induction src generalizing m with
  | nil => rfl
  | cons q rest ih =>
    obtain ⟨a, v⟩ := q
    simp only [List.map_cons, List.nodup_cons] at hnd
    have hstep : objAssign m ((a, v) :: rest) = objAssign (objSet m a v) rest := rfl
    rw [hstep, ih (objSet m a v) hnd.2, lookup_objSet, lookup_cons_if]
    by_cases h2 : k = a
    · subst h2
      rw [if_pos rfl, if_pos rfl,
        lookup_eq_none_of_not_mem_keys rest k hnd.1]
      rfl
    · rw [if_neg h2, if_neg h2]

theorem mem_keys_objSet {V : Type} (m : JsObj V) (a : String) (v : V) (k : String)
    (h : k ∈ (objSet m a v).map Prod.fst) : k ∈ m.map Prod.fst ∨ k = a := by
  unfold objSet at h
  by_cases ha : m.any (fun p => p.1 = a) = true
  · rw [if_pos ha] at h
    have hkeys : (m.map (fun p => if p.1 = a then (a, v) else p)).map Prod.fst
        = m.map Prod.fst := by
      rw [List.map_map]
      apply List.map_congr_left
      intro p _
      by_cases hp : p.1 = a
      · simp [hp]
      · simp [hp]
    rw [hkeys] at h
    exact Or.inl h
  · rw [if_neg ha, List.map_append] at h
    rcases List.mem_append.mp h with h1 | h1
    · exact Or.inl h1
    · simp at h1
      exact Or.inr h1

theorem mem_keys_objAssign {V : Type} (src : JsObj V) (m : JsObj V) (k : String)
    (h : k ∈ (objAssign m src).map Prod.fst) :
    k ∈ m.map Prod.fst ∨ k ∈ src.map Prod.fst := by
  induction src generalizing m with
  | nil => exact Or.inl h
  | cons q rest ih =>
    obtain ⟨a, v⟩ := q
    have hstep : objAssign m ((a, v) :: rest) = objAssign (objSet m a v) rest := rfl
    rw [hstep] at h
    rcases ih (objSet m a v) h with h1 | h1
    · rcases mem_keys_objSet m a v k h1 with h2 | h2
      · exact Or.inl h2
      · exact Or.inr (by simp [h2])
    · exact Or.inr (by simp [h1])

theorem jsSplitSpace_ne_nil (l : List Char) : jsSplitSpace l ≠ [] := by
  cases l with
  | nil => simp [jsSplitSpace]
  | cons c rest =>
    simp only [jsSplitSpace]
    by_cases h : c = spaceChar
    · simp [h]
    · simp only [if_neg h]
      cases jsSplitSpace rest <;> simp

theorem jsSplitSpace_length (l : List Char) :
    (jsSplitSpace l).length = l.count spaceChar + 1 := by
  induction l with
  | nil => rfl
  | cons c rest ih =>
    simp only [jsSplitSpace]
    by_cases h : c = spaceChar
    · rw [if_pos h, List.length_cons, ih, List.count_cons]
      simp [h]
    · rw [if_neg h]
      cases hr : jsSplitSpace rest with
      | nil => exact absurd hr (jsSplitSpace_ne_nil rest)
      | cons t ts =>
        have hlen : ts.length = rest.count spaceChar := by
          rw [hr, List.length_cons] at ih
          omega
        rw [List.length_cons, hlen, List.count_cons]
        simp [h]

theorem collectionPresent_clear (w : World) (m n : CollectionName) :
    collectionPresent (clearCollectionW w m) n
      = if n = m then false else collectionPresent w n := by
  cases m <;> cases n <;> simp [clearCollectionW, collectionPresent]

theorem collectionPresent_foldl_clear_mono (names : List CollectionName)
    (w : World) (n : CollectionName) (h : collectionPresent w n = false) :
    collectionPresent (names.foldl clearCollectionW w) n = false := by
  induction names generalizing w with
  | nil => exact h
  | cons m rest ih =>
    rw [List.foldl_cons]
    apply ih
    rw [collectionPresent_clear]
    by_cases hnm : n = m
    · simp [hnm]
    · simp [hnm, h]

theorem collectionPresent_foldl_clear (names : List CollectionName)
    (w : World) (n : CollectionName) (h : n ∈ names) :
    collectionPresent (names.foldl clearCollectionW w) n = false := by
  induction names generalizing w with
  | nil => simp at h
  | cons m rest ih =>
    rcases List.mem_cons.mp h with h1 | h1
    · subst h1
      rw [List.foldl_cons]
      apply collectionPresent_foldl_clear_mono
      rw [collectionPresent_clear]
      simp
    · rw [List.foldl_cons]
      exact ih (clearCollectionW w m) h1

/-!
Claim theorems.
-/

/-- C2 counterexample: merging the template collections with
`Object.assign({}, ...res)` in the order owned, shared, everyone lets a later
collection override an earlier record with the same id. With owned holding
`{a: {body: x}}` and shared holding `{a: {body: y}}`, the merged mapping holds
the shared record at id `a`, not the owned one — refuting first-write-wins. -/
theorem mergeTemplates_later_overrides_example :
    (objAssignAll [[(("a" : String), (⟨"x", none, []⟩ : Template))],
        [(("a" : String), (⟨"y", none, []⟩ : Template))], []]).lookup "a"
      = some ⟨"y", none, []⟩ ∧
    (⟨"y", none, []⟩ : Template) ≠ ⟨"x", none, []⟩ := by
  exact ⟨rfl, by decide⟩

/-- C2 (amended): in the `getTemplates` merge
`Object.assign({}, owned, shared, everyone)` (store/api lines 363-367), later
collections override earlier ones for duplicate ids (last-write-wins per
Object.assign precedence): the merged value at any id is the everyone record if
present, else the shared record, else the owned record. The key-uniqueness
hypotheses hold for all cached collection mappings, which are built by
`refreshLocalData`. -/
theorem mergeTemplates_last_write_wins (owned shared everyone : JsObj Template)
    (k : String)
    (ho : (owned.map Prod.fst).Nodup) (hs : (shared.map Prod.fst).Nodup)
    (he : (everyone.map Prod.fst).Nodup) :
    (objAssignAll [owned, shared, everyone]).lookup k
      = (everyone.lookup k).or ((shared.lookup k).or (owned.lookup k)) := by
  have h1 : objAssignAll [owned, shared, everyone]
      = objAssign (objAssign (objAssign [] owned) shared) everyone := rfl
  rw [h1, lookup_objAssign everyone _ k he, lookup_objAssign shared _ k hs,
    lookup_objAssign owned _ k ho, List.lookup_nil, Option.or_none]

/-- Witness for C2 (amended) at concrete collections with a duplicate id. -/
theorem mergeTemplates_last_write_wins_witness :
    (objAssignAll [[(("a" : String), (⟨"x", none, []⟩ : Template))], [],
        [(("a" : String), (⟨"z", none, []⟩ : Template))]]).lookup "a"
      = (([(("a" : String), (⟨"z", none, []⟩ : Template))] : JsObj Template).lookup "a").or
          ((([] : JsObj Template).lookup "a").or
            (([(("a" : String), (⟨"x", none, []⟩ : Template))] : JsObj Template).lookup "a")) :=
  mergeTemplates_last_write_wins _ _ _ "a" (by decide) (by decide) (by decide)

/-- C3 (code bug evidence): when the persisted ExtensionData carries no
`lastSync` value, `autosync` computes `new Date() - new Date(undefined)`, which
is NaN, and `NaN > timeout` is false — so for every timeout it does NOT trigger
a refetch and leaves the world unchanged, contrary to the spec requirement to
treat an absent `lastSync` as "never synced". -/
theorem autosync_absent_lastSync_no_refetch (now timeout : Int) (env : RemoteEnv)
    (au : Option String) (su : StoredUser) (cs : Collections) (wv : Nat)
    (lu : JsObj String) (sk : Option (Option String)) (b : Bool)
    (p : Option (Option String)) :
    autosync now timeout env ⟨au, su, cs, some ⟨wv, none, lu⟩, sk, b, p⟩
      = (.ok (), ⟨au, su, cs, some ⟨wv, none, lu⟩, sk, b, p⟩) := by
  simp [autosync, autosyncRefetches, getExtensionData, jsDateValue, jsSub, jsGtInt]

/-- C9 counterexample: `''.split(' ')` is `['']`, of length 1, so
`updateTemplateStats` with an empty plaintext increases the persisted `words`
count by one, not by zero. -/
theorem updateTemplateStats_empty_plaintext_adds_one :
    (updateTemplateStats "2026-10-12T00:00:00.000Z" "t1" "" defaultExtensionData).words
        = 1 ∧
    defaultExtensionData.words = 0 := by
  exact ⟨rfl, rfl⟩

/-- C9 (amended): `updateTemplateStats` records the current timestamp as the
last-used time for the template id, and increases the persisted cumulative
`words` count by the length of `plaintext.split(' ')`, i.e. by the number of
space characters in the plaintext plus one (so an empty plaintext adds one). -/
theorem updateTemplateStats_records_and_counts (now id plaintext : String)
    (data : ExtensionData) :
    (updateTemplateStats now id plaintext data).templatesLastUsed.lookup id
        = some now ∧
    (updateTemplateStats now id plaintext data).words
        = data.words + (plaintext.data.count spaceChar + 1) := by
  constructor
  · show (objSet data.templatesLastUsed id now).lookup id = some now
    rw [lookup_objSet, if_pos rfl]
  · show data.words + (jsSplitSpace plaintext.data).length = _
    rw [jsSplitSpace_length]

/-- C6: if `searchTemplates(q1)` is issued and then `searchTemplates(q2)` with
`q2 ≠ q1` is issued before q1 resolves, `lastSearchQuery` is `q2` when q1
settles, so the call for q1 resolves to exactly
`{query: '_SEARCH_CANCELED', results: []}` without invoking the fuzzy-search
ranker (the result is the canceled marker for every ranker `fuzzy`); the call
for q2, still the latest recorded query, resolves to `{query: q2, results}`
with the ranking applied. -/
theorem searchTemplates_stale_query_canceled {R : Type}
    (fuzzy : List TemplateDisplay → List SearchItem → String → List R)
    (q0 q1 q2 : String) (templates : List TemplateDisplay) (tags : List Tag)
    (h : q2 ≠ q1) :
    searchResolve R fuzzy (lastQueryAfter q0 [q1, q2]) q1 templates tags
      = searchCanceled R ∧
    searchResolve R fuzzy (lastQueryAfter q0 [q1, q2]) q2 templates tags
      = { query := q2
          results := fuzzy templates (getSearchList templates tags) q2 } := by
  have hl : lastQueryAfter q0 [q1, q2] = q2 := rfl
  rw [hl]
  constructor
  · simp only [searchResolve]
    rw [if_pos (Ne.symm h)]
  · simp only [searchResolve]
    rw [if_neg (fun hh : q2 ≠ q2 => hh rfl)]

/-- Witness for C6 at the concrete queries of the spec scenario. -/
theorem searchTemplates_stale_query_canceled_witness :
    searchResolve Nat (fun _ _ q => [q.length]) (lastQueryAfter "" ["a", "ab"]) "a" [] []
      = searchCanceled Nat ∧
    searchResolve Nat (fun _ _ q => [q.length]) (lastQueryAfter "" ["a", "ab"]) "ab" [] []
      = { query := "ab"
          results := (fun (_ : List TemplateDisplay) (_ : List SearchItem) (q : String) =>
            [q.length]) [] (getSearchList [] []) "ab" } :=
  searchTemplates_stale_query_canceled
    (fun (_ : List TemplateDisplay) (_ : List SearchItem) (q : String) => [q.length])
    "" "a" "ab" [] [] (by decide)

/-- C10: staleness is decided by string equality with the latest recorded
query, so re-issuing the identical query string q before the first call
resolves does not cancel it: both calls resolve `q` against
`lastSearchQuery = q` and return `{query: q, results}` with the ranking
applied, not the canceled marker. -/
theorem searchTemplates_same_query_not_canceled {R : Type}
    (fuzzy : List TemplateDisplay → List SearchItem → String → List R)
    (q0 q : String) (templates : List TemplateDisplay) (tags : List Tag) :
    searchResolve R fuzzy (lastQueryAfter q0 [q, q]) q templates tags
      = { query := q
          results := fuzzy templates (getSearchList templates tags) q } := by
  have hl : lastQueryAfter q0 [q, q] = q := rfl
  rw [hl]
  simp only [searchResolve]
  rw [if_neg (fun hh : q ≠ q => hh rfl)]

/-- C5: for a signed-in free-plan user, `getTemplates` returns a list that does
not depend on the shared/everyone collections (only `templatesOwned` is
fetched, so no returned record is sourced from `templatesShared` or
`templatesEveryone`, and every returned id is a key of the owned mapping), has
at most 30 elements, and is sorted ascending by creation date among the
returned elements. -/
theorem getTemplates_free_plan_owned_limited_sorted (htmlToText : String → String)
    (owned shared everyone shared2 everyone2 : JsObj Template) :
    getTemplatesResult htmlToText true owned shared everyone
      = getTemplatesResult htmlToText true owned shared2 everyone2 ∧
    (getTemplatesResult htmlToText true owned shared everyone).length
      ≤ templatesFreeLimit ∧
    (getTemplatesResult htmlToText true owned shared everyone).Pairwise
      (fun a b => createdKey a ≤ createdKey b) ∧
    ∀ t ∈ getTemplatesResult htmlToText true owned shared everyone,
      t.id ∈ owned.map Prod.fst := by
  have heq : getTemplatesResult htmlToText true owned shared everyone
      = (sortByCreated ((objAssignAll [owned]).map
          (fun p => projectTemplate htmlToText p.1 p.2))).take templatesFreeLimit := rfl
  refine ⟨rfl, ?_, ?_, ?_⟩
  · rw [heq, List.length_take]
    exact min_le_left _ _
  · rw [heq]
    have htrans : ∀ a b c : TemplateDisplay,
        decide (createdKey a ≤ createdKey b) = true →
        decide (createdKey b ≤ createdKey c) = true →
        decide (createdKey a ≤ createdKey c) = true := by
      intro a b c hab hbc
      exact decide_eq_true (le_trans (of_decide_eq_true hab) (of_decide_eq_true hbc))
    have htotal : ∀ a b : TemplateDisplay,
        (decide (createdKey a ≤ createdKey b) || decide (createdKey b ≤ createdKey a))
          = true := by
      intro a b
      rcases le_total (createdKey a) (createdKey b) with h | h <;> simp [h]
    have hsorted := List.sorted_mergeSort htrans htotal
      ((objAssignAll [owned]).map (fun p => projectTemplate htmlToText p.1 p.2))
    have hsorted2 : (sortByCreated ((objAssignAll [owned]).map
        (fun p => projectTemplate htmlToText p.1 p.2))).Pairwise
        (fun a b => createdKey a ≤ createdKey b) :=
      hsorted.imp (fun hab => of_decide_eq_true hab)
    exact hsorted2.sublist (List.take_sublist _ _)
  · intro t ht
    rw [heq] at ht
    have h1 : t ∈ sortByCreated ((objAssignAll [owned]).map
        (fun p => projectTemplate htmlToText p.1 p.2)) :=
      (List.take_sublist _ _).subset ht
    have h2 : t ∈ (objAssignAll [owned]).map
        (fun p => projectTemplate htmlToText p.1 p.2) :=
      (List.mergeSort_perm _ _).subset h1
    rcases List.mem_map.mp h2 with ⟨p, hp, hpt⟩
    have hid : t.id = p.1 := by rw [← hpt]; rfl
    have hkey : p.1 ∈ (objAssign [] owned).map Prod.fst :=
      List.mem_map_of_mem Prod.fst hp
    rcases mem_keys_objAssign owned [] p.1 hkey with h3 | h3
    · simp at h3
    · rw [hid]
      exact h3

/-- C1 counterexample: two `getCollection` calls for the same collection name,
both issued while no cached value is present and before the first call's remote
fetch resolves (both arrive during the first call's asynchronous cache read,
before the in-flight marker is set), each miss the marker and each issue their
own remote fetch — two remote fetches instead of exactly one — and the two
callers then receive different resulting mappings. -/
theorem getCollection_race_two_fetches :
    (execEvents (initFetcher Nat Nat 2 none)
        [.call 0, .call 1, .resume 0, .resume 1]).fetchCount = 2 ∧
    (execEvents (initFetcher Nat Nat 2 none)
        [.call 0, .call 1, .resume 0, .resume 1]).storage = none ∧
    (execEvents (initFetcher Nat Nat 2 none)
        [.call 0, .call 1, .resume 0, .resume 1,
          .settle 0 (.ok [("a", 1)]), .settle 1 (.ok [("a", 2)])]).calls
      = [.done (.ok [("a", 1)]), .done (.ok [("a", 2)])] := by
  exact ⟨rfl, rfl, rfl⟩

/-- C1 (amended): request coalescing holds from the moment the in-flight marker
is set: a call arriving while `collectionRequestQueue` holds pending fetch f is
attached to that same promise — the fetch count is unchanged and no storage
read is even started — and when f settles, every caller attached to f receives
the identical resulting mapping, the same normalized value `out.map rowsToObj`.
Calls arriving before the first call's asynchronous cache read completes are
not coalesced and may each issue their own fetch (see the race
counterexample). -/
theorem getCollection_coalesces_inflight {δ ε : Type} (s : FetcherState δ ε)
    (i f : Nat) (hq : s.queue = some f) (hi : s.calls[i]? = some .start) :
    (stepCall s i).fetchCount = s.fetchCount ∧
    (stepCall s i).queue = some f ∧
    (stepCall s i).calls[i]? = some (.awaitFetch f) ∧
    ∀ (s2 : FetcherState δ ε) (out : Except ε (List (String × δ))) (j : Nat),
      s2.calls[j]? = some (.awaitFetch f) → f ∈ s2.pending →
      (stepSettle s2 f out).calls[j]? = some (.done (out.map rowsToObj)) := by
  have hlt : i < s.calls.length := (List.getElem?_eq_some_iff.mp hi).1
  refine ⟨?_, ?_, ?_, ?_⟩
  · simp only [stepCall, hi, hq, setCall]
  · simp only [stepCall, hi, hq, setCall]
  · simp only [stepCall, hi, hq, setCall]
    exact List.getElem?_set_self hlt
  · intro s2 out j hj hp
    simp only [stepSettle, if_pos hp]
    rw [List.getElem?_map, hj]
    simp

/-- Witness for C1 (amended) at a concrete in-flight state. -/
theorem getCollection_coalesces_inflight_witness :
    (stepCall (⟨some 0, none, [.start], [0], 1, 1⟩ : FetcherState Nat Nat) 0).fetchCount
      = (⟨some 0, none, [.start], [0], 1, 1⟩ : FetcherState Nat Nat).fetchCount ∧
    (stepCall (⟨some 0, none, [.start], [0], 1, 1⟩ : FetcherState Nat Nat) 0).queue
      = some 0 ∧
    (stepCall (⟨some 0, none, [.start], [0], 1, 1⟩ : FetcherState Nat Nat) 0).calls[0]?
      = some (.awaitFetch 0) ∧
    ∀ (s2 : FetcherState Nat Nat) (out : Except Nat (List (String × Nat))) (j : Nat),
      s2.calls[j]? = some (.awaitFetch 0) → 0 ∈ s2.pending →
      (stepSettle s2 0 out).calls[j]? = some (.done (out.map rowsToObj)) :=
  getCollection_coalesces_inflight (⟨some 0, none, [.start], [0], 1, 1⟩ : FetcherState Nat Nat)
    0 0 rfl rfl

/-- C7: when the remote query of a `getCollection` fetch fails, the error is
propagated unmodified to every attached caller (not swallowed), the settlement
clears the in-flight marker and leaves the cache untouched, and a subsequent
call for the same name (cache still empty) starts a storage read and issues a
new remote fetch — so a retry is possible. -/
theorem getCollection_error_propagates_and_retries {δ ε : Type}
    (s : FetcherState δ ε) (f j k : Nat) (e : ε)
    (hp : f ∈ s.pending) (hj : s.calls[j]? = some (.awaitFetch f))
    (hst : s.storage = none) (hk : s.calls[k]? = some .start) :
    (stepSettle s f (.error e)).calls[j]? = some (.done (.error e)) ∧
    (stepSettle s f (.error e)).queue = none ∧
    (stepSettle s f (.error e)).storage = none ∧
    (stepResume (stepCall (stepSettle s f (.error e)) k) k).fetchCount
      = s.fetchCount + 1 := by
  have hs2k : (stepSettle s f (.error e)).calls[k]? = some .start := by
    simp only [stepSettle, if_pos hp]
    rw [List.getElem?_map, hk]
    rfl
  have hq2 : (stepSettle s f (.error e)).queue = none := by
    simp only [stepSettle, if_pos hp]
  have hst2 : (stepSettle s f (.error e)).storage = none := by
    simp only [stepSettle, if_pos hp]
    exact hst
  have hcnt2 : (stepSettle s f (.error e)).fetchCount = s.fetchCount := by
    simp only [stepSettle, if_pos hp]
  have hklt : k < (stepSettle s f (.error e)).calls.length :=
    (List.getElem?_eq_some_iff.mp hs2k).1
  refine ⟨?_, hq2, hst2, ?_⟩
  · simp only [stepSettle, if_pos hp]
    rw [List.getElem?_map, hj]
    simp [Except.map]
  · have hcall : stepCall (stepSettle s f (.error e)) k
        = setCall (stepSettle s f (.error e)) k .awaitStorage := by
      simp only [stepCall, hs2k, hq2]
    rw [hcall]
    have hget2 : ((stepSettle s f (.error e)).calls.set k .awaitStorage)[k]?
        = some CallState.awaitStorage := List.getElem?_set_self hklt
    simp only [stepResume, setCall, hget2, hst2, hcnt2]

/-- Witness for C7 at a concrete state with one attached caller, one fresh
caller and a failed fetch. -/
theorem getCollection_error_propagates_and_retries_witness :
    (stepSettle (⟨some 0, none, [.awaitFetch 0, .start], [0], 1, 1⟩ : FetcherState Nat Nat)
        0 (.error 5)).calls[0]? = some (.done (.error 5)) ∧
    (stepSettle (⟨some 0, none, [.awaitFetch 0, .start], [0], 1, 1⟩ : FetcherState Nat Nat)
        0 (.error 5)).queue = none ∧
    (stepSettle (⟨some 0, none, [.awaitFetch 0, .start], [0], 1, 1⟩ : FetcherState Nat Nat)
        0 (.error 5)).storage = none ∧
    (stepResume (stepCall (stepSettle
        (⟨some 0, none, [.awaitFetch 0, .start], [0], 1, 1⟩ : FetcherState Nat Nat)
        0 (.error 5)) 1) 1).fetchCount
      = (⟨some 0, none, [.awaitFetch 0, .start], [0], 1, 1⟩ : FetcherState Nat Nat).fetchCount
        + 1 :=
  getCollection_error_propagates_and_retries
    (⟨some 0, none, [.awaitFetch 0, .start], [0], 1, 1⟩ : FetcherState Nat Nat)
    0 0 1 5 (by decide) rfl rfl rfl

/-- C8: after `logout()` completes, a subsequent `getSignedInUser()` call fails
with the LoggedOut sentinel, the persisted ExtensionData `words` count is the
same as before the logout (the cache clear re-reads and re-writes it), and
every collection cache entry is empty. (`clearDataCache()` is not awaited in
the source's logout; the sequential model runs it to completion at its call
site.) -/
theorem logout_logged_out_and_preserves_words (now : Int) (env : RemoteEnv)
    (w : World) :
    (getSignedInUser now env (logout w)).1 = .error .loggedOut ∧
    (getExtensionData (logout w)).words = (getExtensionData w).words ∧
    ∀ n, collectionPresent (logout w) n = false := by
  refine ⟨rfl, rfl, ?_⟩
  intro n
  cases n <;> rfl

/-- C4 counterexample: `refetchCollections` sets the collection keys to null
BEFORE resolving the user, so when user resolution fails with LoggedOut the
operation resolves successfully but the previously cached collection values
have been cleared — the claim that stored state is unaffected fails. -/
theorem refetch_loggedOut_clears_cache_example :
    (let w : World := ⟨none, .absent,
        ⟨none, none, some [("t1", ⟨"t1", "A"⟩)], none, none, none⟩,
        some defaultExtensionData, none, false, none⟩
     let env : RemoteEnv := ⟨.ok [], .ok [], .ok [], .ok [], .ok [], .ok []⟩
     w.collections.tags = some [("t1", ⟨"t1", "A"⟩)] ∧
     (refetchCollections 0 env [] w).1 = .ok () ∧
     (refetchCollections 0 env [] w).2.collections.tags = none) := by
  exact ⟨rfl, rfl, rfl⟩

/-- C4 (amended): when user resolution fails inside `refetchCollections`, the
requested collection keys (default: all six) have already been set to null —
previously cached collection values are cleared, not left unchanged. If the
failure is the LoggedOut sentinel, the whole operation then resolves
successfully (no refetch happens); any other failure propagates to the
caller. -/
theorem refetchCollections_user_resolution_outcome (now : Int) (env : RemoteEnv)
    (names : List CollectionName) (w : World) (e : JsError) (w2 : World)
    (h : getSignedInUser now env
        ((if names.isEmpty then allCollections else names).foldl clearCollectionW w)
      = (.error e, w2)) :
    refetchCollections now env names w
      = (if isLoggedOut e then (.ok (), w2) else (.error e, w2)) ∧
    ∀ n ∈ (if names.isEmpty then allCollections else names),
      collectionPresent
        ((if names.isEmpty then allCollections else names).foldl clearCollectionW w) n
        = false := by
  constructor
  · simp only [refetchCollections]
    rw [h]
  · intro n hn
    exact collectionPresent_foldl_clear _ w n hn

/-- Witness for C4 (amended) at a concrete logged-out world with one named
collection. -/
theorem refetchCollections_user_resolution_outcome_witness :
    (refetchCollections 0 ⟨.ok [], .ok [], .ok [], .ok [], .ok [], .ok []⟩
        [.tags]
        ⟨none, .absent,
          ⟨none, none, some [("t1", ⟨"t1", "A"⟩)], none, none, none⟩,
          some defaultExtensionData, none, false, none⟩
      = (if isLoggedOut .loggedOut then
          (.ok (), ⟨none, .absent, ⟨none, none, none, none, none, none⟩,
            some defaultExtensionData, none, false, none⟩)
        else
          (.error .loggedOut, ⟨none, .absent, ⟨none, none, none, none, none, none⟩,
            some defaultExtensionData, none, false, none⟩))) ∧
    ∀ n ∈ (if ([CollectionName.tags] : List CollectionName).isEmpty then
        allCollections else [CollectionName.tags]),
      collectionPresent
        ((if ([CollectionName.tags] : List CollectionName).isEmpty then
            allCollections else [CollectionName.tags]).foldl clearCollectionW
          ⟨none, .absent,
            ⟨none, none, some [("t1", ⟨"t1", "A"⟩)], none, none, none⟩,
            some defaultExtensionData, none, false, none⟩) n
        = false :=
  refetchCollections_user_resolution_outcome 0
    ⟨.ok [], .ok [], .ok [], .ok [], .ok [], .ok []⟩ [.tags]
    ⟨none, .absent,
      ⟨none, none, some [("t1", ⟨"t1", "A"⟩)], none, none, none⟩,
      some defaultExtensionData, none, false, none⟩
    .loggedOut
    ⟨none, .absent, ⟨none, none, none, none, none, none⟩,
      some defaultExtensionData, none, false, none⟩
    rfl

end Flowe
